import Mathlib

/-!
Shallow embedding of `src/lib/rpi-cam.js` (class `LiveStream`) from the
rpi_camera_livestream repository, together with theorems settling the
specification claims about it.

Modelling conventions:
* JavaScript numbers that flow through `parseInt` are modelled by `JNum`:
  either an integer or `NaN`.  JS comparisons with `NaN` are always false,
  which `JNum.lt` / `JNum.gt` reproduce.
* Thrown JS errors become `Except.error` with a `JsError` payload recording
  the kind of error (validation / lifecycle / ReferenceError / TypeError)
  and the message string from the source.  A throw in the source happens
  before any field assignment, so an `Except.error` result leaves the
  state unchanged by construction.
* The asynchronous camera callbacks (`camera.start/pause/resume/stop`)
  resolve exactly once per the collaborator contract; each lifecycle
  operation is modelled as the synchronous composition of its guard, the
  external call (which needs a camera handle: calling a method on `null`
  raises a TypeError that the source catches and turns into a rejection),
  and the state mutations performed inside the completion callback.
* The fan-out server state that lives outside the JS object (the set of
  per-connection `frame` listeners installed by `#listen`) is modelled by
  a subscriber count `clients`; a frame event runs every installed
  handler, and each handler assigns `this.lastFrame = frameData` before
  writing to its own response stream.
-/

namespace RpiCam

/-- Result of JavaScript `parseInt`: an integer or `NaN`. -/
inductive JNum where
  | nan : JNum
  | num : Int → JNum
deriving DecidableEq, Repr

/-- JS `<` on `parseInt` results: any comparison involving `NaN` is false. -/
def JNum.ltb : JNum → JNum → Bool
  | JNum.num a, JNum.num b => decide (a < b)
  | _, _ => false

/-- JS `>` on `parseInt` results: any comparison involving `NaN` is false. -/
def JNum.gtb : JNum → JNum → Bool
  | JNum.num a, JNum.num b => decide (b < a)
  | _, _ => false

/-- A handle to an HTTP server app: either externally registered (identified
by a caller-chosen id) or the express app the controller creates itself in
`#initialize`. -/
inductive AppHandle where
  | external : Nat → AppHandle
  | internal : AppHandle
deriving DecidableEq, Repr

/-- `this.server` from the constructor: `{ app: null, port: 8000 }`, plus a
flag recording whether the controller itself called `listen` (it does so only
for the app it creates in `#initialize`). -/
structure Server where
  app : Option AppHandle
  port : JNum
  listening : Bool
deriving DecidableEq, Repr

/-- `this.config`: capture parameters.  Numeric fields are `JNum` because
every setter stores the result of `parseInt`. -/
structure Config where
  width : JNum
  height : JNum
  fps : JNum
  encoding : String
  quality : JNum
deriving DecidableEq, Repr

/-- Kinds of JS errors the source can produce, with the message string. -/
inductive JsError where
  | validation : String → JsError
  | lifecycle : String → JsError
  | reference : String → JsError
  | typeError : String → JsError
deriving DecidableEq, Repr

/-- `true` exactly when the result is a rejected/thrown lifecycle error. -/
def isLifecycleFailure {α : Type} : Except JsError α → Bool
  | Except.error (JsError.lifecycle _) => true
  | _ => false

/-- The full state of a `LiveStream` instance, plus the fan-out server's
per-connection subscriber count (`clients`), which in the source lives in the
camera emitter's listener list rather than on the object. -/
structure LiveStream where
  camera : Bool
  server : Server
  config : Config
  mimeType : Option String
  pathname : String
  lastFrame : Option (List Nat)
  verboseMode : Bool
  started : Bool
  paused : Bool
  stopped : Bool
  clients : Nat
deriving DecidableEq, Repr

/-- The constructor with its default config argument
(`width 1280, height 720, fps 16, encoding JPEG, quality 25`). -/
def initState : LiveStream :=
  { camera := false
    server := { app := none, port := JNum.num 8000, listening := false }
    config := { width := JNum.num 1280, height := JNum.num 720
                fps := JNum.num 16, encoding := "JPEG", quality := JNum.num 25 }
    mimeType := none
    pathname := "/live.stream"
    lastFrame := none
    verboseMode := false
    started := false
    paused := false
    stopped := false
    clients := 0 }

/-- Static field `LiveStream.supportedEncodingTypes`. -/
def supportedEncodingTypes : List String :=
  ["JPEG", "GIF", "PNG", "PPM", "TGA", "BMP"]

/-- `register(app, port = null)`: stores the app handle, and
`this.server.port = (port) ? parseInt(port) : this.server.port` — the stored
port is replaced only when the argument is truthy (a nonzero, non-NaN
number); `0`, `NaN` and `null` are falsy and keep the previous port.
No `listen` call is made. -/
def register (app : Nat) (port : Option JNum) (s : LiveStream) : LiveStream :=
  let truthy : Bool := match port with
    | some (JNum.num p) => decide (p ≠ 0)
    | some JNum.nan => false
    | none => false
  { s with server := { s.server with
      app := some (AppHandle.external app)
      port := if truthy then (match port with | some q => q | none => s.server.port)
              else s.server.port } }

/-- `setPort(port)`: stores `parseInt(port)` (the ≤1023 warning is
console-only). -/
def setPort (port : JNum) (s : LiveStream) : LiveStream :=
  { s with server := { s.server with port := port } }

/-- `setPathname(src)`: prepends a slash when missing, trims. -/
def setPathname (src : String) (s : LiveStream) : LiveStream :=
  { s with pathname := if src.startsWith "/" then src.trim else "/" ++ src.trim }

/-- `setVerboseMode(mode)`. -/
def setVerboseMode (mode : Bool) (s : LiveStream) : LiveStream :=
  { s with verboseMode := mode }

/-- Error message of `setWidth` for camera version `v`. -/
def widthMsg (v : Int) (maxWidth : Int) : String :=
  "[-] Maximum width must between 32 and " ++ toString maxWidth ++
    " for v" ++ toString v ++ " cameras."

/-- `setWidth(width, v = 2)`: `maxWidth = (v === 1) ? 2592 : 3280`; throws
when `widthVal < 32 || widthVal > maxWidth`, else stores `parseInt(width)`. -/
def setWidth (width : JNum) (v : Int) (s : LiveStream) : Except JsError LiveStream :=
  let maxWidth : Int := if v = 1 then 2592 else 3280
  if width.ltb (JNum.num 32) || width.gtb (JNum.num maxWidth) then
    Except.error (JsError.validation (widthMsg v maxWidth))
  else
    Except.ok { s with config := { s.config with width := width } }

/-- Error message of `setHeight` for camera version `v`. -/
def heightMsg (v : Int) (maxHeight : Int) : String :=
  "[-] Maximum height must between 16 and " ++ toString maxHeight ++
    " for v" ++ toString v ++ " cameras."

/-- `setHeight(height, v = 2)`: `maxHeight = (v === 1) ? 1944 : 2464`; throws
when `heightVal < 16 || heightVal > maxHeight`, else stores the value. -/
def setHeight (height : JNum) (v : Int) (s : LiveStream) : Except JsError LiveStream :=
  let maxHeight : Int := if v = 1 then 1944 else 2464
  if height.ltb (JNum.num 16) || height.gtb (JNum.num maxHeight) then
    Except.error (JsError.validation (heightMsg v maxHeight))
  else
    Except.ok { s with config := { s.config with height := height } }

/-- `setFPS(fps)`: throws when `fpsVal < 1 || fpsVal > 90`, else stores. -/
def setFPS (fps : JNum) (s : LiveStream) : Except JsError LiveStream :=
  if fps.ltb (JNum.num 1) || fps.gtb (JNum.num 90) then
    Except.error (JsError.validation "[-] FPS value must between 1 and 90.")
  else
    Except.ok { s with config := { s.config with fps := fps } }

/-- `setQuality(quality)`: throws when `qltyVal < 1 || qltyVal > 100`. -/
def setQuality (quality : JNum) (s : LiveStream) : Except JsError LiveStream :=
  if quality.ltb (JNum.num 1) || quality.gtb (JNum.num 100) then
    Except.error (JsError.validation "[-] Quality value must between 1 and 100.")
  else
    Except.ok { s with config := { s.config with quality := quality } }

/-- `setEncoding(encoding)` as written in the source (lines 97-102): after
computing `encoding.trim().toUpperCase()` the guard evaluates the bare
identifier `supportedEncodingTypes`.  No binding of that name is in scope —
the list is the static field `LiveStream.supportedEncodingTypes` — so the
lookup raises `ReferenceError: supportedEncodingTypes is not defined` before
either assignment is reached, for every argument. -/
def setEncoding (_encoding : String) (_s : LiveStream) : Except JsError LiveStream :=
  Except.error (JsError.reference "supportedEncodingTypes is not defined")

/-- `getLastFrame()`: throws a lifecycle error when the `started` flag is
false, else returns `this.lastFrame`. -/
def getLastFrame (s : LiveStream) : Except JsError (Option (List Nat)) :=
  if !s.started then
    Except.error (JsError.lifecycle
      "[-] Last frame cannot be captured because the livestream has not started yet")
  else
    Except.ok s.lastFrame

/-- The base64 alphabet used by `Buffer.prototype.toString('base64')`. -/
def b64Alphabet : List Char :=
  String.toList "ABCDEFGHIJKLMNOPQRSTUVWXYZabcdefghijklmnopqrstuvwxyz0123456789+/"

/-- Character for a 6-bit group. -/
def b64Char (n : Nat) : Char := b64Alphabet.getD n 'A'

/-- Standard base64 with `=` padding, as produced by
`Buffer.from(bytes).toString('base64')`.  Each byte is reduced mod 256
(`Buffer` stores octets). -/
def base64Encode : List Nat → String
  | [] => ""
  | [a] =>
    let a := a % 256
    String.mk [b64Char (a / 4), b64Char (a % 4 * 16)] ++ "=="
  | [a, b] =>
    let a := a % 256
    let b := b % 256
    String.mk [b64Char (a / 4), b64Char (a % 4 * 16 + b / 16), b64Char (b % 16 * 4)] ++ "="
  | a :: b :: c :: rest =>
    let a := a % 256
    let b := b % 256
    let c := c % 256
    String.mk [b64Char (a / 4), b64Char (a % 4 * 16 + b / 16),
               b64Char (b % 16 * 4 + c / 64), b64Char (c % 64)] ++ base64Encode rest

/-- How a JS template literal renders `this.mimeType`: the string itself, or
the text `null` when the field still holds its initial `null`. -/
def mimeTypeStr (s : LiveStream) : String :=
  match s.mimeType with
  | some m => m
  | none => "null"

/-- `getSnapshot()`: the returned promise always resolves — to
`` `data:${this.mimeType};base64,${Buffer.from(this.lastFrame).toString('base64')}` ``
when `this.lastFrame` is truthy (any buffer), and to `null` otherwise. -/
def getSnapshot (s : LiveStream) : Option String :=
  match s.lastFrame with
  | some frame => some ("data:" ++ mimeTypeStr s ++ ";base64," ++ base64Encode frame)
  | none => none

/-- `getSupportedEncodingTypes()`: comma-joins the static list. -/
def getSupportedEncodingTypes : String :=
  String.intercalate "," supportedEncodingTypes

/-- `start()`: rejects with a lifecycle error when `streamStatus.stopped`;
otherwise `#initialize` sets `this.camera = require(...)` and, when no
external app was registered, creates an express app and calls `listen`;
then `camera.start(config, cb)` fires `cb`, which sets `started = true`
and registers the route via `#listen`. -/
def start (s : LiveStream) : Except JsError LiveStream :=
  if s.stopped then
    Except.error (JsError.lifecycle
      "[-] The stream cannot be started after it has been stopped")
  else
    let s₁ := { s with camera := true }
    let s₂ := match s₁.server.app with
      | none => { s₁ with server :=
          { s₁.server with app := some AppHandle.internal, listening := true } }
      | some _ => s₁
    Except.ok { s₂ with started := true }

/-- `pause()`: rejects with a lifecycle error when `!streamStatus.started`;
otherwise calls `this.camera.pause(cb)` — a TypeError (caught and turned
into a rejection) when the camera handle is `null` — and `cb` sets
`paused = true`. -/
def pause (s : LiveStream) : Except JsError LiveStream :=
  if !s.started then
    Except.error (JsError.lifecycle
      "[-] The stream cannot be paused because it has not been started yet")
  else if !s.camera then
    Except.error (JsError.typeError "Cannot read properties of null (reading pause)")
  else
    Except.ok { s with paused := true }

/-- `resume()`: rejects with a lifecycle error when `!streamStatus.paused`;
otherwise calls `this.camera.resume(cb)` (TypeError on a `null` handle) and
`cb` sets `paused = false`. -/
def resume (s : LiveStream) : Except JsError LiveStream :=
  if !s.paused then
    Except.error (JsError.lifecycle
      "[-] The stream cannot be resumed because it has not been paused")
  else if !s.camera then
    Except.error (JsError.typeError "Cannot read properties of null (reading resume)")
  else
    Except.ok { s with paused := false }

/-- `stop()`: rejects with a lifecycle error when `!streamStatus.started`;
otherwise calls `this.camera.stop(cb)` (TypeError on a `null` handle) and
`cb` sets `stopped = true`, `started = false`, `camera = null`. -/
def stop (s : LiveStream) : Except JsError LiveStream :=
  if !s.started then
    Except.error (JsError.lifecycle
      "[-] The stream cannot be stopped because it has not been started yet")
  else if !s.camera then
    Except.error (JsError.typeError "Cannot read properties of null (reading stop)")
  else
    Except.ok { s with stopped := true, started := false, camera := false }

/-- A client connecting to the route handler registered by `#listen`:
`this.camera.on('frame', frameHandler)` installs one more subscription. -/
def connectClient (s : LiveStream) : LiveStream :=
  { s with clients := s.clients + 1 }

/-- A client disconnect: `frameEmitter.removeListener('frame', frameHandler)`
removes that connection's subscription. -/
def disconnectClient (s : LiveStream) : LiveStream :=
  { s with clients := s.clients - 1 }

/-- Running `n` installed `frameHandler`s on one frame event: each handler
first executes `this.lastFrame = frameData`, then writes the multipart chunk
to its own response stream (a per-connection effect outside this state). -/
def applyHandlers (n : Nat) (frameData : List Nat) (s : LiveStream) : LiveStream :=
  match n with
  | 0 => s
  | Nat.succ m => applyHandlers m frameData { s with lastFrame := some frameData }

/-- One `frame` event from the camera source: every currently installed
per-connection handler runs on the same `frameData`. -/
def frameEvent (frameData : List Nat) (s : LiveStream) : LiveStream :=
  applyHandlers s.clients frameData s

/-- The state-mutating operations a caller can perform on one controller. -/
inductive Op where
  | opStart : Op
  | opPause : Op
  | opResume : Op
  | opStop : Op
  | opRegister : Nat → Option JNum → Op
  | opSetPort : JNum → Op
  | opSetPathname : String → Op
  | opSetVerboseMode : Bool → Op
  | opSetWidth : JNum → Int → Op
  | opSetHeight : JNum → Int → Op
  | opSetFPS : JNum → Op
  | opSetQuality : JNum → Op
  | opSetEncoding : String → Op
  | opConnect : Op
  | opDisconnect : Op
  | opFrame : List Nat → Op
deriving DecidableEq, Repr

/-- Run one operation, returning the new state or the thrown/rejected
error. -/
def runOp : Op → LiveStream → Except JsError LiveStream
  | Op.opStart, s => start s
  | Op.opPause, s => pause s
  | Op.opResume, s => resume s
  | Op.opStop, s => stop s
  | Op.opRegister a p, s => Except.ok (register a p s)
  | Op.opSetPort p, s => Except.ok (setPort p s)
  | Op.opSetPathname p, s => Except.ok (setPathname p s)
  | Op.opSetVerboseMode m, s => Except.ok (setVerboseMode m s)
  | Op.opSetWidth w v, s => setWidth w v s
  | Op.opSetHeight h v, s => setHeight h v s
  | Op.opSetFPS f, s => setFPS f s
  | Op.opSetQuality q, s => setQuality q s
  | Op.opSetEncoding e, s => setEncoding e s
  | Op.opConnect, s => Except.ok (connectClient s)
  | Op.opDisconnect, s => Except.ok (disconnectClient s)
  | Op.opFrame d, s => Except.ok (frameEvent d s)

/-- The state after one operation: a thrown or rejected error leaves the
object untouched (every throw in the source precedes its mutations). -/
def stepState (o : Op) (s : LiveStream) : LiveStream :=
  match runOp o s with
  | Except.ok t => t
  | Except.error _ => s

/-- The state after a sequence of operations. -/
def runSeq (ops : List Op) (s : LiveStream) : LiveStream :=
  match ops with
  | [] => s
  | o :: rest => runSeq rest (stepState o s)

/-- JavaScript `parseInt` on a string argument (radix 10): skips leading
whitespace, consumes an optional sign and then a maximal run of decimal
digits; yields `NaN` when no digit is consumed. -/
def parseIntJS (str : String) : JNum :=
  let chars := str.toList.dropWhile (fun c => c.isWhitespace)
  let signAndRest : Int × List Char :=
    match chars with
    | '-' :: rest => (-1, rest)
    | '+' :: rest => (1, rest)
    | rest => (1, rest)
  let digits := signAndRest.2.takeWhile Char.isDigit
  if digits.isEmpty then JNum.nan
  else
    JNum.num (signAndRest.1 *
      Int.ofNat (digits.foldl (fun acc c => acc * 10 + (c.toNat - 48)) 0))

/-! ### Reachable reference states used by witnesses and counterexamples -/

/-- The state after a successful `start()` on a fresh instance: the camera
handle is acquired, an internal express app was created and is listening,
and the `started` flag is set by the camera-ready callback. -/
def startedState : LiveStream :=
  { initState with
      camera := true
      server := { app := some AppHandle.internal, port := JNum.num 8000, listening := true }
      started := true }

/-- `startedState` after a successful `pause()`. -/
def pausedState : LiveStream := { startedState with paused := true }

/-- `startedState` after a successful `stop()`. -/
def stoppedState : LiveStream :=
  { startedState with stopped := true, started := false, camera := false }

/-- `startedState` after one client connected and one frame event was
delivered to its handler. -/
def framedState : LiveStream :=
  { startedState with clients := 1, lastFrame := some [1, 2, 3] }

/-- `framedState` after a successful `stop()`. -/
def stoppedFramedState : LiveStream :=
  { framedState with stopped := true, started := false, camera := false }

/-! ### Helper lemmas -/

/-- Running any number of frame handlers either leaves the state alone
(no handlers installed) or overwrites `lastFrame` with the frame. -/
theorem applyHandlers_eq (n : Nat) (d : List Nat) (s : LiveStream) :
    applyHandlers n d s = s ∨ applyHandlers n d s = { s with lastFrame := some d } := by
  induction n generalizing s with
  | zero => exact Or.inl rfl
  | succ m ih =>
      right
      show applyHandlers m d { s with lastFrame := some d } = { s with lastFrame := some d }
      rcases ih { s with lastFrame := some d } with h | h
      · exact h
      · exact h

/-- Destructing a successful `stop()`: the guard and the camera call force
the pre-state flags, and the post-state is exactly the callback's update. -/
theorem stop_ok_dest (s t : LiveStream) (h : stop s = Except.ok t) :
    s.started = true ∧ s.camera = true ∧
      t = { s with stopped := true, started := false, camera := false } := by
  unfold stop at h
  cases hs : s.started <;> simp [hs] at h
  cases hc : s.camera <;> simp [hc] at h
  exact ⟨rfl, rfl, h.symm⟩

/-- Destructing a successful `pause()`. -/
theorem pause_ok_dest (s t : LiveStream) (h : pause s = Except.ok t) :
    s.started = true ∧ s.camera = true ∧ t = { s with paused := true } := by
  unfold pause at h
  cases hs : s.started <;> simp [hs] at h
  cases hc : s.camera <;> simp [hc] at h
  exact ⟨rfl, rfl, h.symm⟩

/-- Destructing a successful `resume()`. -/
theorem resume_ok_dest (s t : LiveStream) (h : resume s = Except.ok t) :
    s.paused = true ∧ s.camera = true ∧ t = { s with paused := false } := by
  unfold resume at h
  cases hs : s.paused <;> simp [hs] at h
  cases hc : s.camera <;> simp [hc] at h
  exact ⟨rfl, rfl, h.symm⟩

/-- No operation can leave the stopped state: once `stopped` is set, the
`started` flag stays cleared and the camera handle stays released. -/
theorem stepState_flags (o : Op) (s : LiveStream)
    (h1 : s.stopped = true) (h2 : s.started = false) (h3 : s.camera = false) :
    (stepState o s).stopped = true ∧ (stepState o s).started = false ∧
      (stepState o s).camera = false := by
  cases o with
  | opStart => simp [stepState, runOp, start, h1, h2, h3]
  | opPause => simp [stepState, runOp, pause, h1, h2, h3]
  | opResume => cases hp : s.paused <;> simp [stepState, runOp, resume, hp, h1, h2, h3]
  | opStop => simp [stepState, runOp, stop, h1, h2, h3]
  | opRegister a p => simp [stepState, runOp, register, h1, h2, h3]
  | opSetPort p => simp [stepState, runOp, setPort, h1, h2, h3]
  | opSetPathname p => simp [stepState, runOp, setPathname, h1, h2, h3]
  | opSetVerboseMode m => simp [stepState, runOp, setVerboseMode, h1, h2, h3]
  | opSetWidth w v =>
      cases hc : JNum.ltb w (JNum.num 32) || JNum.gtb w (JNum.num (if v = 1 then 2592 else 3280)) <;>
        simp [stepState, runOp, setWidth, hc, h1, h2, h3]
  | opSetHeight w v =>
      cases hc : JNum.ltb w (JNum.num 16) || JNum.gtb w (JNum.num (if v = 1 then 1944 else 2464)) <;>
        simp [stepState, runOp, setHeight, hc, h1, h2, h3]
  | opSetFPS f =>
      cases hc : JNum.ltb f (JNum.num 1) || JNum.gtb f (JNum.num 90) <;>
        simp [stepState, runOp, setFPS, hc, h1, h2, h3]
  | opSetQuality q =>
      cases hc : JNum.ltb q (JNum.num 1) || JNum.gtb q (JNum.num 100) <;>
        simp [stepState, runOp, setQuality, hc, h1, h2, h3]
  | opSetEncoding e => simp [stepState, runOp, setEncoding, h1, h2, h3]
  | opConnect => simp [stepState, runOp, connectClient, h1, h2, h3]
  | opDisconnect => simp [stepState, runOp, disconnectClient, h1, h2, h3]
  | opFrame d =>
      rcases applyHandlers_eq s.clients d s with he | he <;>
        simp [stepState, runOp, frameEvent, he, h1, h2, h3]

/-- The terminal-state invariant extends along any sequence of operations. -/
theorem runSeq_flags (ops : List Op) (s : LiveStream)
    (h1 : s.stopped = true) (h2 : s.started = false) (h3 : s.camera = false) :
    (runSeq ops s).stopped = true ∧ (runSeq ops s).started = false ∧
      (runSeq ops s).camera = false := by
  induction ops generalizing s with
  | nil => exact ⟨h1, h2, h3⟩
  | cons o rest ih =>
      obtain ⟨g1, g2, g3⟩ := stepState_flags o s h1 h2 h3
      exact ih (stepState o s) g1 g2 g3

/-! ### Claims -/

/-- C1: the spec asks that `setEncoding('png')` store `PNG` and MIME
`image/png` and that unknown types fail with a ValidationError.  The source
instead evaluates the bare identifier `supportedEncodingTypes` (line 99),
which is not in scope (the list is the static field
`LiveStream.supportedEncodingTypes`), so every call — valid or not — throws
a ReferenceError before any assignment; in particular `setEncoding('png')`
does not succeed and `setEncoding('WEBP')` fails with a ReferenceError, not
a ValidationError. -/
theorem setEncoding_always_reference_error :
    setEncoding "png" initState =
      Except.error (JsError.reference "supportedEncodingTypes is not defined") ∧
    setEncoding "WEBP" initState =
      Except.error (JsError.reference "supportedEncodingTypes is not defined") ∧
    (∀ (e : String) (s : LiveStream),
      setEncoding e s =
        Except.error (JsError.reference "supportedEncodingTypes is not defined")) :=
  ⟨rfl, rfl, fun _ _ => rfl⟩

/-- C2 (counterexample): on an active stream with zero connected clients no
`frame` listener is installed, so a frame event leaves the shared last-frame
buffer untouched — refuting "updates the buffer regardless of how many
clients are connected (including when zero clients are connected)".  The
state is reachable: it is exactly the result of `start()` on a fresh
instance. -/
theorem frameEvent_zero_clients_counterexample :
    start initState = Except.ok startedState ∧
    startedState.started = true ∧
    startedState.clients = 0 ∧
    frameEvent [1, 2, 3] startedState = startedState ∧
    (frameEvent [1, 2, 3] startedState).lastFrame ≠ some [1, 2, 3] := by
  refine ⟨rfl, rfl, rfl, rfl, ?_⟩
  decide

/-- C2 (amended): while the stream is active, a frame event overwrites the
shared last-frame buffer with the frame's bytes whenever at least one client
is connected (each connection's handler assigns the same frame, so the value
converges regardless of handler order); with zero connected clients no
handler is subscribed and the state is unchanged. -/
theorem frameEvent_updates_lastFrame (d : List Nat) (s : LiveStream) :
    (1 ≤ s.clients → (frameEvent d s).lastFrame = some d) ∧
    (s.clients = 0 → frameEvent d s = s) := by
  constructor
  · intro h
    obtain ⟨m, hm⟩ : ∃ m, s.clients = m + 1 := ⟨s.clients - 1, by omega⟩
    unfold frameEvent
    rw [hm]
    show (applyHandlers m d { s with lastFrame := some d }).lastFrame = some d
    rcases applyHandlers_eq m d { s with lastFrame := some d } with h2 | h2 <;> rw [h2]
  · intro h
    unfold frameEvent
    rw [h]
    rfl

/-- C2 (witness): with one connected client, a frame event stores the frame
in the buffer. -/
theorem frameEvent_updates_lastFrame_witness :
    (frameEvent [7] (connectClient startedState)).lastFrame = some [7] :=
  (frameEvent_updates_lastFrame [7] (connectClient startedState)).1 (by decide)

/-- C3: once `stop()` has completed successfully the controller is terminal:
the `stopped` flag is set, the `started` flag cleared and the camera handle
released, every subsequent `start()` fails with a LifecycleError, and no
sequence of further operations leaves the stopped state. -/
theorem stop_terminal_one_shot (s t : LiveStream) (h : stop s = Except.ok t)
    (ops : List Op) :
    t.stopped = true ∧ t.started = false ∧ t.camera = false ∧
    (runSeq ops t).stopped = true ∧ (runSeq ops t).started = false ∧
    (runSeq ops t).camera = false ∧
    isLifecycleFailure (start (runSeq ops t)) = true := by
  obtain ⟨hs, hc, ht⟩ := stop_ok_dest s t h
  subst ht
  obtain ⟨g1, g2, g3⟩ :=
    runSeq_flags ops { s with stopped := true, started := false, camera := false } rfl rfl rfl
  refine ⟨rfl, rfl, rfl, g1, g2, g3, ?_⟩
  simp [start, isLifecycleFailure, g1]

/-- C3 (witness): the terminal behaviour at the concrete run
start → stop, followed by an attempted restart. -/
theorem stop_terminal_one_shot_witness :
    stoppedState.stopped = true ∧ stoppedState.started = false ∧
    stoppedState.camera = false ∧
    (runSeq [Op.opStart] stoppedState).stopped = true ∧
    (runSeq [Op.opStart] stoppedState).started = false ∧
    (runSeq [Op.opStart] stoppedState).camera = false ∧
    isLifecycleFailure (start (runSeq [Op.opStart] stoppedState)) = true :=
  stop_terminal_one_shot startedState stoppedState rfl [Op.opStart]

/-- C4 (counterexample): `stop()` clears the `started` flag, and
`getLastFrame()` checks exactly that flag, so on the reachable run
start → stop a later `getLastFrame()` call fails with a LifecycleError —
refuting "including calls made after ... stop()". -/
theorem getLastFrame_after_stop_counterexample :
    start initState = Except.ok startedState ∧
    stop startedState = Except.ok stoppedState ∧
    getLastFrame stoppedState =
      Except.error (JsError.lifecycle
        "[-] Last frame cannot be captured because the livestream has not started yet") :=
  ⟨rfl, rfl, rfl⟩

/-- C4 (amended): `getLastFrame()` succeeds (returning the current last
frame, possibly `null`) exactly while the `started` flag is true; `pause()`
and `resume()` preserve that flag, so calls after them do not fail, but a
successful `stop()` clears it, so calls after `stop()` fail with a
LifecycleError. -/
theorem getLastFrame_started_flag (s : LiveStream) :
    (s.started = true → getLastFrame s = Except.ok s.lastFrame) ∧
    (s.started = false → isLifecycleFailure (getLastFrame s) = true) ∧
    (∀ t, pause s = Except.ok t → t.started = s.started) ∧
    (∀ t, resume s = Except.ok t → t.started = s.started) ∧
    (∀ t, stop s = Except.ok t → isLifecycleFailure (getLastFrame t) = true) := by
  refine ⟨?_, ?_, ?_, ?_, ?_⟩
  · intro h; simp [getLastFrame, h]
  · intro h; simp [getLastFrame, isLifecycleFailure, h]
  · intro t ht
    obtain ⟨-, -, rfl⟩ := pause_ok_dest s t ht
    rfl
  · intro t ht
    obtain ⟨-, -, rfl⟩ := resume_ok_dest s t ht
    rfl
  · intro t ht
    obtain ⟨-, -, rfl⟩ := stop_ok_dest s t ht
    simp [getLastFrame, isLifecycleFailure]

/-- C4 (amended, witness): concrete instances — after start the call
succeeds, after pause it still sees `started`, after stop it fails. -/
theorem getLastFrame_started_flag_witness :
    getLastFrame startedState = Except.ok startedState.lastFrame ∧
    pausedState.started = startedState.started ∧
    isLifecycleFailure (getLastFrame stoppedState) = true :=
  ⟨(getLastFrame_started_flag startedState).1 rfl,
   (getLastFrame_started_flag startedState).2.2.1 pausedState rfl,
   (getLastFrame_started_flag stoppedState).2.1 rfl⟩

set_option maxRecDepth 10000 in
/-- C5 (counterexample): `mimeType` is `null` in the default configuration
(the constructor sets it to `null` and only `setEncoding` would assign it),
and the template literal in `getSnapshot` renders it as the text `null`, so
on the reachable run start → connect → frame the snapshot string begins with
`data:null;base64,` — not `data:image/jpeg;base64,` for the configured
default encoding `JPEG` as the claim requires. -/
theorem getSnapshot_default_mime_counterexample :
    frameEvent [1, 2, 3] (connectClient startedState) = framedState ∧
    framedState.config.encoding = "JPEG" ∧
    getSnapshot framedState = some "data:null;base64,AQID" ∧
    ("data:null;base64,AQID").startsWith "data:image/jpeg;base64," = false := by
  refine ⟨rfl, rfl, ?_, ?_⟩
  · decide
  · decide

/-- C5 (amended): `getSnapshot()` always resolves: to `null` while the
last-frame buffer is unset, and otherwise to
`data:<m>;base64,<base64 of the frame bytes>`, where `<m>` is the stored
`mimeType` rendered as a string — the text `null` until `setEncoding` has
stored a MIME type, which under the default configuration (and, per C1, on
every run of this source) it never has, so the prefix is `data:null;base64,`
rather than `data:image/<encoding>;base64,`. -/
theorem getSnapshot_always_resolves (s : LiveStream) :
    (s.lastFrame = none → getSnapshot s = none) ∧
    (∀ f, s.lastFrame = some f →
      getSnapshot s = some ("data:" ++ mimeTypeStr s ++ ";base64," ++ base64Encode f)) := by
  constructor
  · intro h
    simp [getSnapshot, h]
  · intro f h
    simp [getSnapshot, h]

/-- C5 (amended, witness): before any frame the snapshot is `null`; with a
captured frame it is the data URI built from the rendered MIME type. -/
theorem getSnapshot_always_resolves_witness :
    getSnapshot initState = none ∧
    getSnapshot framedState =
      some ("data:" ++ mimeTypeStr framedState ++ ";base64," ++ base64Encode [1, 2, 3]) :=
  ⟨(getSnapshot_always_resolves initState).1 rfl,
   (getSnapshot_always_resolves framedState).2 [1, 2, 3] rfl⟩

/-- C6 (counterexample): `pause()` only checks the `started` flag, which a
successful `pause()` leaves set, so on the reachable run start → pause a
second `pause()` succeeds instead of failing with a LifecycleError. -/
theorem pause_from_paused_counterexample :
    start initState = Except.ok startedState ∧
    pause startedState = Except.ok pausedState ∧
    pause pausedState = Except.ok pausedState :=
  ⟨rfl, rfl, rfl⟩

/-- C6 (amended): `pause()` fails with a LifecycleError — leaving the state
unchanged — exactly when the `started` flag is false, i.e. in the idle and
stopped states; whenever `started` is set and the camera handle is present,
which includes the paused state (`started` stays true there), it succeeds
and sets the `paused` flag. -/
theorem pause_guard (s : LiveStream) :
    (s.started = false → isLifecycleFailure (pause s) = true) ∧
    (s.started = true → s.camera = true →
      pause s = Except.ok { s with paused := true }) := by
  constructor
  · intro h
    simp [pause, isLifecycleFailure, h]
  · intro h1 h2
    simp [pause, h1, h2]

/-- C6 (amended, witness): pause fails from idle and from stopped, and
succeeds from paused. -/
theorem pause_guard_witness :
    isLifecycleFailure (pause initState) = true ∧
    isLifecycleFailure (pause stoppedState) = true ∧
    pause pausedState = Except.ok { pausedState with paused := true } :=
  ⟨(pause_guard initState).1 rfl, (pause_guard stoppedState).1 rfl,
   (pause_guard pausedState).2 rfl rfl⟩

/-- C7: each bounded setter, applied to an integer value (an input whose
`parseInt` is that integer), succeeds inside the documented range — the
config then reads the new value — and fails with a ValidationError outside
it; an error result leaves the instance untouched (the throw precedes the
assignment in the source). -/
theorem bounded_setters (s : LiveStream) (wd hgt fp qt v : Int) :
    (32 ≤ wd ∧ wd ≤ (if v = 1 then 2592 else 3280) →
      setWidth (JNum.num wd) v s =
        Except.ok { s with config := { s.config with width := JNum.num wd } }) ∧
    (¬(32 ≤ wd ∧ wd ≤ (if v = 1 then 2592 else 3280)) →
      setWidth (JNum.num wd) v s =
        Except.error (JsError.validation (widthMsg v (if v = 1 then 2592 else 3280)))) ∧
    (16 ≤ hgt ∧ hgt ≤ (if v = 1 then 1944 else 2464) →
      setHeight (JNum.num hgt) v s =
        Except.ok { s with config := { s.config with height := JNum.num hgt } }) ∧
    (¬(16 ≤ hgt ∧ hgt ≤ (if v = 1 then 1944 else 2464)) →
      setHeight (JNum.num hgt) v s =
        Except.error (JsError.validation (heightMsg v (if v = 1 then 1944 else 2464)))) ∧
    (1 ≤ fp ∧ fp ≤ 90 →
      setFPS (JNum.num fp) s =
        Except.ok { s with config := { s.config with fps := JNum.num fp } }) ∧
    (¬(1 ≤ fp ∧ fp ≤ 90) →
      setFPS (JNum.num fp) s =
        Except.error (JsError.validation "[-] FPS value must between 1 and 90.")) ∧
    (1 ≤ qt ∧ qt ≤ 100 →
      setQuality (JNum.num qt) s =
        Except.ok { s with config := { s.config with quality := JNum.num qt } }) ∧
    (¬(1 ≤ qt ∧ qt ≤ 100) →
      setQuality (JNum.num qt) s =
        Except.error (JsError.validation "[-] Quality value must between 1 and 100.")) := by
  refine ⟨?_, ?_, ?_, ?_, ?_, ?_, ?_, ?_⟩
  · intro hin
    have hc : (JNum.ltb (JNum.num wd) (JNum.num 32) ||
        JNum.gtb (JNum.num wd) (JNum.num (if v = 1 then 2592 else 3280))) = false := by
      rcases eq_or_ne v 1 with hv | hv <;>
        simp [JNum.ltb, JNum.gtb, hv] at hin ⊢ <;> omega
    simp [setWidth, hc]
  · intro hout
    have hc : (JNum.ltb (JNum.num wd) (JNum.num 32) ||
        JNum.gtb (JNum.num wd) (JNum.num (if v = 1 then 2592 else 3280))) = true := by
      rcases eq_or_ne v 1 with hv | hv <;>
        simp [JNum.ltb, JNum.gtb, hv] at hout ⊢ <;> omega
    simp [setWidth, hc]
  · intro hin
    have hc : (JNum.ltb (JNum.num hgt) (JNum.num 16) ||
        JNum.gtb (JNum.num hgt) (JNum.num (if v = 1 then 1944 else 2464))) = false := by
      rcases eq_or_ne v 1 with hv | hv <;>
        simp [JNum.ltb, JNum.gtb, hv] at hin ⊢ <;> omega
    simp [setHeight, hc]
  · intro hout
    have hc : (JNum.ltb (JNum.num hgt) (JNum.num 16) ||
        JNum.gtb (JNum.num hgt) (JNum.num (if v = 1 then 1944 else 2464))) = true := by
      rcases eq_or_ne v 1 with hv | hv <;>
        simp [JNum.ltb, JNum.gtb, hv] at hout ⊢ <;> omega
    simp [setHeight, hc]
  · intro hin
    have hc : (JNum.ltb (JNum.num fp) (JNum.num 1) ||
        JNum.gtb (JNum.num fp) (JNum.num 90)) = false := by
      simp [JNum.ltb, JNum.gtb]
      omega
    simp [setFPS, hc]
  · intro hout
    have hc : (JNum.ltb (JNum.num fp) (JNum.num 1) ||
        JNum.gtb (JNum.num fp) (JNum.num 90)) = true := by
      simp [JNum.ltb, JNum.gtb]
      omega
    simp [setFPS, hc]
  · intro hin
    have hc : (JNum.ltb (JNum.num qt) (JNum.num 1) ||
        JNum.gtb (JNum.num qt) (JNum.num 100)) = false := by
      simp [JNum.ltb, JNum.gtb]
      omega
    simp [setQuality, hc]
  · intro hout
    have hc : (JNum.ltb (JNum.num qt) (JNum.num 1) ||
        JNum.gtb (JNum.num qt) (JNum.num 100)) = true := by
      simp [JNum.ltb, JNum.gtb]
      omega
    simp [setQuality, hc]

/-- C7 (witness): the spec scenario — `setWidth(100, 1)` succeeds,
`setWidth(3000, 1)` fails, `setWidth(3000, 2)` succeeds — together with an
in-range and an out-of-range instance of each remaining setter. -/
theorem bounded_setters_witness :
    setWidth (JNum.num 100) 1 initState =
      Except.ok { initState with config := { initState.config with width := JNum.num 100 } } ∧
    setWidth (JNum.num 3000) 1 initState =
      Except.error (JsError.validation (widthMsg 1 2592)) ∧
    setWidth (JNum.num 3000) 2 initState =
      Except.ok { initState with config := { initState.config with width := JNum.num 3000 } } ∧
    setHeight (JNum.num 2000) 1 initState =
      Except.error (JsError.validation (heightMsg 1 1944)) ∧
    setHeight (JNum.num 2000) 2 initState =
      Except.ok { initState with config := { initState.config with height := JNum.num 2000 } } ∧
    setFPS (JNum.num 30) initState =
      Except.ok { initState with config := { initState.config with fps := JNum.num 30 } } ∧
    setFPS (JNum.num 91) initState =
      Except.error (JsError.validation "[-] FPS value must between 1 and 90.") ∧
    setQuality (JNum.num 50) initState =
      Except.ok { initState with config := { initState.config with quality := JNum.num 50 } } ∧
    setQuality (JNum.num 0) initState =
      Except.error (JsError.validation "[-] Quality value must between 1 and 100.") := by
  refine ⟨?_, ?_, ?_, ?_, ?_, ?_, ?_, ?_, ?_⟩
  · exact (bounded_setters initState 100 16 1 1 1).1 (by decide)
  · exact (bounded_setters initState 3000 16 1 1 1).2.1 (by decide)
  · exact (bounded_setters initState 3000 16 1 1 2).1 (by decide)
  · exact (bounded_setters initState 100 2000 1 1 1).2.2.2.1 (by decide)
  · exact (bounded_setters initState 100 2000 1 1 2).2.2.1 (by decide)
  · exact (bounded_setters initState 100 16 30 1 2).2.2.2.2.1 (by decide)
  · exact (bounded_setters initState 100 16 91 1 2).2.2.2.2.2.1 (by decide)
  · exact (bounded_setters initState 100 16 1 50 2).2.2.2.2.2.2.1 (by decide)
  · exact (bounded_setters initState 100 16 1 0 2).2.2.2.2.2.2.2 (by decide)

/-- C8 (counterexample): `register` guards the port assignment with JS
truthiness and `0` is falsy, so `register(app, 0)` keeps the previously
stored port (the default 8000) instead of storing the given port `0` —
refuting "for every integer port, including 0". -/
theorem register_port_zero_counterexample :
    (register 1 (some (JNum.num 0)) initState).server.app =
      some (AppHandle.external 1) ∧
    (register 1 (some (JNum.num 0)) initState).server.port = JNum.num 8000 ∧
    JNum.num 8000 ≠ JNum.num 0 := by
  refine ⟨rfl, rfl, ?_⟩
  decide

/-- C8 (amended): `register(serverHandle, port)` always stores the given
handle and never starts listening; a given port overrides the stored port
only when it is truthy (a nonzero integer) — port `0`, like an absent port,
leaves the previously stored port unchanged. -/
theorem register_spec (a : Nat) (p : Int) (s : LiveStream) :
    (register a (some (JNum.num p)) s).server.app = some (AppHandle.external a) ∧
    (register a none s).server.app = some (AppHandle.external a) ∧
    (p ≠ 0 → (register a (some (JNum.num p)) s).server.port = JNum.num p) ∧
    (p = 0 → (register a (some (JNum.num p)) s).server.port = s.server.port) ∧
    (register a none s).server.port = s.server.port ∧
    (register a (some (JNum.num p)) s).server.listening = s.server.listening ∧
    (register a none s).server.listening = s.server.listening := by
  refine ⟨rfl, rfl, ?_, ?_, rfl, rfl, rfl⟩
  · intro h
    simp [register, h]
  · intro h
    simp [register, h]

/-- C8 (amended, witness): a nonzero port is stored, port zero is not. -/
theorem register_spec_witness :
    (register 1 (some (JNum.num 8080)) initState).server.port = JNum.num 8080 ∧
    (register 1 (some (JNum.num 0)) initState).server.port = initState.server.port :=
  ⟨(register_spec 1 8080 initState).2.2.1 (by decide),
   (register_spec 1 0 initState).2.2.2.1 rfl⟩

/-- C9: a successful `stop()` mutates only the status flags and the camera
handle; the last frame, config, MIME type, pathname, server binding,
verbose flag and client subscriptions are untouched, so a frame captured
before `stop()` is still returned by `getSnapshot()` afterwards. -/
theorem stop_only_touches_flags (s t : LiveStream) (h : stop s = Except.ok t) :
    t.stopped = true ∧ t.started = false ∧ t.camera = false ∧
    t.lastFrame = s.lastFrame ∧ t.config = s.config ∧ t.mimeType = s.mimeType ∧
    t.pathname = s.pathname ∧ t.server = s.server ∧ t.paused = s.paused ∧
    t.verboseMode = s.verboseMode ∧ t.clients = s.clients ∧
    getSnapshot t = getSnapshot s := by
  obtain ⟨-, -, rfl⟩ := stop_ok_dest s t h
  exact ⟨rfl, rfl, rfl, rfl, rfl, rfl, rfl, rfl, rfl, rfl, rfl, rfl⟩

/-- C9 (witness): stopping the stream after a frame was captured keeps the
frame and the snapshot it yields. -/
theorem stop_only_touches_flags_witness :
    stoppedFramedState.stopped = true ∧ stoppedFramedState.started = false ∧
    stoppedFramedState.camera = false ∧
    stoppedFramedState.lastFrame = framedState.lastFrame ∧
    stoppedFramedState.config = framedState.config ∧
    stoppedFramedState.mimeType = framedState.mimeType ∧
    stoppedFramedState.pathname = framedState.pathname ∧
    stoppedFramedState.server = framedState.server ∧
    stoppedFramedState.paused = framedState.paused ∧
    stoppedFramedState.verboseMode = framedState.verboseMode ∧
    stoppedFramedState.clients = framedState.clients ∧
    getSnapshot stoppedFramedState = getSnapshot framedState :=
  stop_only_touches_flags framedState stoppedFramedState rfl

/-- C10: an input whose `parseInt` is `NaN` (for example the non-numeric
string "abc") silently passes every range check — both `NaN < lo` and
`NaN > hi` are false in JS — so each bounded setter succeeds and stores
`NaN` as the config value instead of failing with a ValidationError. -/
theorem nan_passes_validation (v : Int) (s : LiveStream) :
    parseIntJS "abc" = JNum.nan ∧
    setWidth JNum.nan v s =
      Except.ok { s with config := { s.config with width := JNum.nan } } ∧
    setHeight JNum.nan v s =
      Except.ok { s with config := { s.config with height := JNum.nan } } ∧
    setFPS JNum.nan s =
      Except.ok { s with config := { s.config with fps := JNum.nan } } ∧
    setQuality JNum.nan s =
      Except.ok { s with config := { s.config with quality := JNum.nan } } :=
  ⟨by decide, rfl, rfl, rfl, rfl⟩

end RpiCam
